import Mathlib

/-!
Verification of the DriftGuard drift-detection core.

This file shallowly embeds the Go code of `internal/detector/detector.go`,
`internal/controller/controller.go` and `internal/database/database.go`
(diff engine, drift state machine, persistence upsert) and proves or refutes
the frozen specification claims about them.

Modelling conventions:
* Manifest values (Go `interface{}` trees decoded from YAML/JSON) are the
  inductive `Value`.  A Go `map[string]interface{}` is an association list
  `List (String × Value)` whose list order models the order in which a Go
  `range` loop happens to enumerate the map (Go randomises that order per
  loop, so it is an extra input of each run, not a function of the map).
* Go `time.Time` values are `Nat` instants supplied explicitly as `now`
  parameters wherever the code calls `time.Now()`.
* Machine integers are `Int`/`Nat`; 32-bit words inside SHA-256 are `Nat`
  reduced modulo `2 ^ 32` at every operation.
-/

/-- A decoded manifest value: Go `interface{}` holding `nil`, `bool`,
integer scalars, `string`, `[]interface{}` or `map[string]interface{}`.
(Go JSON decoding can also yield `float64`; the claims under verification
only involve null/bool/integer/string scalars, so non-integral floats are
not part of the grammar.) -/
inductive Value where
  | vNull : Value
  | vBool : Bool → Value
  | vInt : Int → Value
  | vStr : String → Value
  | vArr : List Value → Value
  | vMap : List (String × Value) → Value

/-- The Go dynamic type of a value, as compared by
`reflect.TypeOf(live) != reflect.TypeOf(desired)` in `deepCompare`
(detector.go line 57).  Two `nil` interfaces have equal (nil) type. -/
def typeTag : Value → Nat
  | .vNull => 0
  | .vBool _ => 1
  | .vInt _ => 2
  | .vStr _ => 3
  | .vArr _ => 4
  | .vMap _ => 5

/-- Go map lookup `v[key]` (Go maps have unique keys; the association list
returns the first binding). -/
def lookupStr (key : String) : List (String × Value) → Option Value
  | [] => Option.none
  | (k, v) :: rest => if k = key then some v else lookupStr key rest

mutual
/-- Structural equality of values, the `reflect.DeepEqual(live, desired)`
test of detector.go line 119.  `deepCompare` only reaches it on same-typed
non-map non-slice values, where `DeepEqual` is plain structural equality;
the map/array cases below are never consulted by that call site. -/
def beqV : Value → Value → Bool
  | .vNull, .vNull => true
  | .vBool a, .vBool b => a == b
  | .vInt a, .vInt b => a == b
  | .vStr a, .vStr b => a == b
  | .vArr a, .vArr b => beqL a b
  | .vMap a, .vMap b => beqM a b
  | _, _ => false

def beqL : List Value → List Value → Bool
  | [], [] => true
  | a :: as, b :: bs => beqV a b && beqL as bs
  | _, _ => false

def beqM : List (String × Value) → List (String × Value) → Bool
  | [], [] => true
  | (k1, v1) :: as, (k2, v2) :: bs => k1 == k2 && beqV v1 v2 && beqM as bs
  | _, _ => false
end

/-- `strings.Contains(s, pat)`: some contiguous run of `s` equals `pat`. -/
def strContains (s pat : String) : Bool :=
  (List.range (s.data.length + 1)).any (fun i => pat.data.isPrefixOf (s.data.drop i))

/-- `strings.ToLower` restricted to the ASCII field paths the detector
builds (`Char.toLower` lowercases exactly the ASCII letters). -/
def goToLower (s : String) : String :=
  String.mk (s.data.map Char.toLower)

/-- One emitted field difference (`models.DriftChange`).  The Go struct
fields `From`/`To` are rendered `fromVal`/`toVal` because `from` is a Lean
keyword. -/
structure DriftChange where
  field : String
  fromVal : Value
  toVal : Value
  type : String
  severity : String

/-- detector.go `createDriftChange`: note the argument order at every call
site — the *desired* value is passed as `from` and the *live* value as
`to`. -/
def createDriftChange (field : String) (fromVal toVal : Value) (changeType severity : String) : DriftChange :=
  { field := field, fromVal := fromVal, toVal := toVal, type := changeType, severity := severity }

/-- detector.go `classifyChange`: first substring match on the lowercased
path wins; the two value arguments are ignored by the Go code. -/
def classifyChange (field : String) (_fromVal _toVal : Value) : String :=
  let fieldLower := goToLower field
  if strContains fieldLower "replicas" then "Scaling"
  else if strContains fieldLower "image" then "VersionChange"
  else if strContains fieldLower "resources" then "ResourceChange"
  else if strContains fieldLower "env" then "ConfigurationChange"
  else if strContains fieldLower "labels" then "LabelChange"
  else if strContains fieldLower "annotations" then "AnnotationChange"
  else if strContains fieldLower "ports" then "PortChange"
  else if strContains fieldLower "volume" then "VolumeChange"
  else if strContains fieldLower "secret" then "SecretChange"
  else if strContains fieldLower "configmap" then "ConfigMapChange"
  else "GenericChange"

/-- detector.go `toInt`: the `int`/`int32`/`int64` cases of the Go type
switch (the `float64` case truncates toward zero; non-integral floats are
outside the embedded value grammar, integral numbers are `vInt`).  Every
other value reports `(0, false)`, embedded as `none`. -/
def toInt : Value → Option Int
  | .vInt n => some n
  | _ => Option.none

/-- detector.go `isSignificantReplicaChange`:
`percentChange := float64(diff) / float64(fromInt) * 100; return percentChange >= 50`.
The IEEE-754 `float64` arithmetic is embedded exactly on the reachable
range (|replica counts| < 2^53, where both operands are exact):
* `fromInt = 0` and `diff > 0` divides by zero giving `+Inf`, and
  `+Inf >= 50` holds;
* `fromInt = 0` and `diff = 0` gives `NaN`, and `NaN >= 50` is false;
* `fromInt < 0` gives a non-positive quotient, below `50`;
* `fromInt > 0`: `diff / fromInt * 100 >= 50` iff `100 * diff ≥ 50 * fromInt`. -/
def isSignificantReplicaChange (fromV toV : Value) : Bool :=
  match toInt fromV, toInt toV with
  | some fromInt, some toIntV =>
      let diff : Int := |fromInt - toIntV|
      if fromInt = 0 then diff ≠ 0
      else if fromInt < 0 then false
      else 100 * diff ≥ 50 * fromInt
  | _, _ => false

/-- detector.go `assessSeverity`: three ordered switches over the
lowercased path, with the replica-delta check for the `high` tier. -/
def assessSeverity (field : String) (fromVal toVal : Value) : String :=
  let fieldLower := goToLower field
  if strContains fieldLower "image" then "high"
  else if strContains fieldLower "secret" then "high"
  else if strContains fieldLower "resources.limits" then "high"
  else if strContains fieldLower "replicas" && isSignificantReplicaChange fromVal toVal then "high"
  else if strContains fieldLower "replicas" then "medium"
  else if strContains fieldLower "env" then "medium"
  else if strContains fieldLower "ports" then "medium"
  else if strContains fieldLower "volume" then "medium"
  else if strContains fieldLower "resources.requests" then "medium"
  else if strContains fieldLower "labels" then "low"
  else if strContains fieldLower "annotations" then "low"
  else "low"

/-- The trailing live-only indices of `deepCompare`'s slice loop
(detector.go lines 112-115): each emits one `ExtraElement`. -/
def extraElements (path : String) : Nat → List Value → List DriftChange
  | _, [] => []
  | i, lv :: lrest =>
      createDriftChange (path ++ "[" ++ toString i ++ "]") .vNull lv "ExtraElement" "low"
        :: extraElements path (i + 1) lrest

mutual
/-- detector.go `deepCompare`: type mismatch emits one `TypeChange`;
mappings walk the desired side only; sequences compare lengths then
positions; equally-typed scalars emit one classified change when unequal.
The association-list order of the desired `vMap` is the order Go's `range`
enumerates the map in this run. -/
def deepCompare (path : String) (live desired : Value) : List DriftChange :=
  if typeTag live ≠ typeTag desired then
    [createDriftChange path desired live "TypeChange" "medium"]
  else
    match live, desired with
    | .vMap v, .vMap desiredMap => compareMapFields path v desiredMap
    | .vArr v, .vArr desiredSlice =>
        (if v.length ≠ desiredSlice.length then
          [createDriftChange path (.vInt desiredSlice.length) (.vInt v.length) "ArrayLength" "medium"]
        else []) ++ compareSlices path 0 v desiredSlice
    | live, desired =>
        if beqV live desired then []
        else [createDriftChange path desired live (classifyChange path desired live)
                (assessSeverity path desired live)]
  termination_by 2 * sizeOf desired
  decreasing_by all_goals simp_wf <;> omega

/-- The `for key, desiredValue := range desiredMap` loop of `deepCompare`
(detector.go lines 70-85): a desired key absent from live emits
`MissingField`, a present key recurses; keys only in live are never
visited. -/
def compareMapFields (path : String) (live : List (String × Value)) :
    List (String × Value) → List DriftChange
  | [] => []
  | (key, desiredValue) :: rest =>
      let currentPath := if path = "" then key else path ++ "." ++ key
      (match lookupStr key live with
       | Option.none => [createDriftChange currentPath desiredValue .vNull "MissingField" "high"]
       | Option.some liveValue => deepCompare currentPath liveValue desiredValue)
      ++ compareMapFields path live rest
  termination_by l => 2 * sizeOf l + 1
  decreasing_by all_goals simp_wf <;> omega

/-- The index loop of `deepCompare`'s slice case (detector.go lines
103-116): shared indices recurse, a desired-only index emits
`MissingElement`, live-only indices emit `ExtraElement`. -/
def compareSlices (path : String) (i : Nat) : List Value → List Value → List DriftChange
  | lv :: lrest, dv :: drest =>
      deepCompare (path ++ "[" ++ toString i ++ "]") lv dv ++ compareSlices path (i + 1) lrest drest
  | [], dv :: drest =>
      createDriftChange (path ++ "[" ++ toString i ++ "]") dv .vNull "MissingElement" "medium"
        :: compareSlices path (i + 1) [] drest
  | l, [] => extraElements path i l
  termination_by l d => 2 * sizeOf d + 1
  decreasing_by all_goals simp_wf <;> omega
end

/-- `models.DriftResult` as populated by `DetectDrift`. -/
structure DriftResult where
  resourceID : String
  detected : Bool
  changes : List DriftChange
  lastEvaluated : Nat
  liveState : List (String × Value)
  desiredState : List (String × Value)

/-- detector.go `DetectDrift`: runs `deepCompare` from the empty path and
marks the result detected exactly when the change list is non-empty. -/
def detectDrift (resourceID : String) (liveState desiredState : List (String × Value))
    (now : Nat) : DriftResult :=
  let result : DriftResult :=
    { resourceID := resourceID, detected := false, changes := [], lastEvaluated := now,
      liveState := liveState, desiredState := desiredState }
  let changes := deepCompare "" (.vMap liveState) (.vMap desiredState)
  if changes.length > 0 then { result with detected := true, changes := changes }
  else result

/-- Byte-order comparison of keys, the order in which Go's
`encoding/json` emits the keys of a `map[string]interface{}` (UTF-8 byte
order coincides with code-point order). -/
def keyLe : List Char → List Char → Bool
  | [], _ => true
  | _ :: _, [] => false
  | a :: as, b :: bs =>
      if a.toNat < b.toNat then true
      else if b.toNat < a.toNat then false
      else keyLe as bs

def insertEntry (p : String × Value) : List (String × Value) → List (String × Value)
  | [] => [p]
  | q :: rest => if keyLe p.1.data q.1.data then p :: q :: rest else q :: insertEntry p rest

/-- Stable sort of mapping entries by key (insertion sort). -/
def sortByKey : List (String × Value) → List (String × Value)
  | [] => []
  | p :: rest => insertEntry p (sortByKey rest)

mutual
/-- Recursively order every mapping of a value by sorted key.  Two values
denote the same key-value trees (the same Go maps, whatever order a range
loop would enumerate them in) exactly when their canonical forms are
equal. -/
def canonV : Value → Value
  | .vNull => .vNull
  | .vBool b => .vBool b
  | .vInt n => .vInt n
  | .vStr s => .vStr s
  | .vArr xs => .vArr (canonL xs)
  | .vMap kvs => .vMap (sortByKey (canonM kvs))

def canonL : List Value → List Value
  | [] => []
  | v :: vs => canonV v :: canonL vs

def canonM : List (String × Value) → List (String × Value)
  | [] => []
  | (k, v) :: rest => (k, canonV v) :: canonM rest
end

def jsonEscapeChar (c : Char) : List Char :=
  if c = '"' then ['\\', '"']
  else if c = '\\' then ['\\', '\\']
  else [c]

def jsonQuote (s : String) : String :=
  "\"" ++ String.mk ((s.data.map jsonEscapeChar).join) ++ "\""

mutual
/-- JSON rendering of an already-canonicalised value.
`jsonMarshal` below composes this with `canonV`, which models Go
`encoding/json.Marshal`: maps are encoded with their keys in sorted byte
order, arrays and scalars positionally. -/
def marshalV : Value → String
  | .vNull => "null"
  | .vBool b => if b then "true" else "false"
  | .vInt n => toString n
  | .vStr s => jsonQuote s
  | .vArr xs => "[" ++ marshalL xs ++ "]"
  | .vMap kvs => "\x7b" ++ marshalM kvs ++ "\x7d"

def marshalL : List Value → String
  | [] => ""
  | [v] => marshalV v
  | v :: rest => marshalV v ++ "," ++ marshalL rest

def marshalM : List (String × Value) → String
  | [] => ""
  | [(k, v)] => jsonQuote k ++ ":" ++ marshalV v
  | (k, v) :: rest => jsonQuote k ++ ":" ++ marshalV v ++ "," ++ marshalM rest
end

/-- `json.Marshal` of a `map[string]interface{}`: canonical (sorted-key)
rendering at every nesting level. -/
def jsonMarshal (state : List (String × Value)) : String :=
  marshalV (canonV (.vMap state))

/-- UTF-8 encoding of one character. -/
def utf8Bytes (c : Char) : List Nat :=
  let n := c.toNat
  if n < 128 then [n]
  else if n < 2048 then [192 ||| (n >>> 6), 128 ||| (n &&& 63)]
  else if n < 65536 then [224 ||| (n >>> 12), 128 ||| ((n >>> 6) &&& 63), 128 ||| (n &&& 63)]
  else [240 ||| (n >>> 18), 128 ||| ((n >>> 12) &&& 63), 128 ||| ((n >>> 6) &&& 63), 128 ||| (n &&& 63)]

def strBytes (s : String) : List Nat :=
  (s.data.map utf8Bytes).join

/-! SHA-256 (`crypto/sha256.Sum256`), over byte lists, with 32-bit words
as `Nat` reduced modulo `2 ^ 32`. -/

def w32 (n : Nat) : Nat := n % 4294967296

def rotr32 (x n : Nat) : Nat := w32 ((x >>> n) ||| (x <<< (32 - n)))

def bigSigma0 (x : Nat) : Nat := (rotr32 x 2 ^^^ rotr32 x 13) ^^^ rotr32 x 22

def bigSigma1 (x : Nat) : Nat := (rotr32 x 6 ^^^ rotr32 x 11) ^^^ rotr32 x 25

def smallSigma0 (x : Nat) : Nat := (rotr32 x 7 ^^^ rotr32 x 18) ^^^ (x >>> 3)

def smallSigma1 (x : Nat) : Nat := (rotr32 x 17 ^^^ rotr32 x 19) ^^^ (x >>> 10)

def chFn (e f g : Nat) : Nat := (e &&& f) ^^^ ((e ^^^ 4294967295) &&& g)

def majFn (a b c : Nat) : Nat := ((a &&& b) ^^^ (a &&& c)) ^^^ (b &&& c)

def sha256K : List Nat :=
  [1116352408, 1899447441, 3049323471, 3921009573, 961987163,
   1508970993, 2453635748, 2870763221, 3624381080, 310598401,
   607225278, 1426881987, 1925078388, 2162078206, 2614888103,
   3248222580, 3835390401, 4022224774, 264347078, 604807628,
   770255983, 1249150122, 1555081692, 1996064986, 2554220882,
   2821834349, 2952996808, 3210313671, 3336571891, 3584528711,
   113926993, 338241895, 666307205, 773529912, 1294757372,
   1396182291, 1695183700, 1986661051, 2177026350, 2456956037,
   2730485921, 2820302411, 3259730800, 3345764771, 3516065817,
   3600352804, 4094571909, 275423344, 430227734, 506948616,
   659060556, 883997877, 958139571, 1322822218, 1537002063,
   1747873779, 1955562222, 2024104815, 2227730452, 2361852424,
   2428436474, 2756734187, 3204031479, 3329325298]

def sha256H0 : List Nat :=
  [1779033703, 3144134277, 1013904242, 2773480762,
   1359893119, 2600822924, 528734635, 1541459225]

def natToBytesBE : Nat → Nat → List Nat
  | 0, _ => []
  | len + 1, n => natToBytesBE len (n / 256) ++ [n % 256]

def bytesToWordsBE : List Nat → List Nat
  | b0 :: b1 :: b2 :: b3 :: rest => (((b0 * 256 + b1) * 256 + b2) * 256 + b3) :: bytesToWordsBE rest
  | _ => []

/-- Append the `0x80` marker, zero padding to 56 mod 64, and the 64-bit
big-endian bit length. -/
def sha256Pad (msg : List Nat) : List Nat :=
  let padLen := (119 - (msg.length % 64)) % 64
  msg ++ [128] ++ List.replicate padLen 0 ++ natToBytesBE 8 (8 * msg.length)

def extendSchedule : Nat → List Nat → List Nat
  | 0, ws => ws
  | k + 1, ws =>
      let n := ws.length
      let w := w32 (smallSigma1 (ws.getD (n - 2) 0) + ws.getD (n - 7) 0 +
                    smallSigma0 (ws.getD (n - 15) 0) + ws.getD (n - 16) 0)
      extendSchedule k (ws ++ [w])

def sha256Round (st : List Nat) (kw : Nat × Nat) : List Nat :=
  match st with
  | [a, b, c, d, e, f, g, h] =>
      let t1 := w32 (h + bigSigma1 e + chFn e f g + kw.1 + kw.2)
      let t2 := w32 (bigSigma0 a + majFn a b c)
      [w32 (t1 + t2), a, b, c, w32 (d + t1), e, f, g]
  | other => other

def sha256Block (h : List Nat) (block : List Nat) : List Nat :=
  let ws := extendSchedule 48 (bytesToWordsBE block)
  let st := (sha256K.zip ws).foldl sha256Round h
  (h.zip st).map (fun p => w32 (p.1 + p.2))

def chunks64 (l : List Nat) : List (List Nat) :=
  if h : l.isEmpty then [] else l.take 64 :: chunks64 (l.drop 64)
  termination_by l.length
  decreasing_by
    simp_wf
    simp [List.isEmpty_iff] at h
    have : 0 < l.length := List.length_pos.mpr h
    omega

def sha256Bytes (msg : List Nat) : List Nat :=
  let hfin := (chunks64 (sha256Pad msg)).foldl sha256Block sha256H0
  (hfin.map (natToBytesBE 4)).join

def hexDigit (n : Nat) : Char :=
  if n < 10 then Char.ofNat (48 + n) else Char.ofNat (87 + n)

/-- `fmt.Sprintf("%x", _)`: lowercase hex, two digits per byte. -/
def bytesToHex (bs : List Nat) : String :=
  String.mk ((bs.map (fun b => [hexDigit (b / 16), hexDigit (b % 16)])).join)

/-- database.go `generateHash`: empty string for a nil map, otherwise
`"sha256:" + hex(sha256(json.Marshal(state)))`.  (`json.Marshal` cannot
fail on decoded manifest data, so the error branch is unreachable.) -/
def generateHash : Option (List (String × Value)) → String
  | Option.none => ""
  | Option.some state => "sha256:" ++ bytesToHex (sha256Bytes (strBytes (jsonMarshal state)))

/-! Drift state machine and persistence (`controller.go`, `database.go`).
`models.DriftStatus` is a string type in Go; its constants follow. -/

def DriftStatusActive : String := "active"

def DriftStatusResolved : String := "resolved"

def DriftStatusNone : String := "none"

/-- `models.DriftRecord`, doubling as the decoded form of the MongoDB
`drift_records` document (the struct's bson tags map fields one to one).
`namespaceF` renders the Go field `Namespace` (`namespace` is a Lean
keyword); nullable timestamps are `Option Nat`. -/
structure DriftRecord where
  id : Nat
  resourceID : String
  kind : String
  namespaceF : String
  name : String
  driftDetected : Bool
  driftStatus : String
  driftDetails : List DriftChange
  desiredState : Option (List (String × Value))
  liveState : List (String × Value)
  lastKnownGoodHash : String
  firstDetected : Option Nat
  resolvedAt : Option Nat
  resolutionMessage : String
  lastUpdated : Nat
  createdAt : Nat

/-- controller.go `handleDriftStateTransition` (lines 241-296): mutates the
fresh record according to the prior record and the new diff outcome.
Logging calls are side-effect free for the record and are omitted. -/
def handleDriftStateTransition (existingRecord : Option DriftRecord)
    (newRecord : DriftRecord) (now : Nat) : DriftRecord :=
  match existingRecord with
  | Option.none =>
      if newRecord.driftDetected then
        { newRecord with driftStatus := DriftStatusActive, firstDetected := some now }
      else
        { newRecord with driftStatus := DriftStatusNone }
  | Option.some existing =>
      if existing.driftStatus = DriftStatusActive ∧ ¬newRecord.driftDetected then
        { newRecord with
            driftStatus := DriftStatusResolved,
            resolvedAt := some now,
            resolutionMessage := "Drift resolved. Configuration now matches Git.",
            firstDetected := existing.firstDetected }
      else if newRecord.driftDetected then
        if existing.driftStatus ≠ DriftStatusActive then
          { newRecord with driftStatus := DriftStatusActive, firstDetected := some now }
        else
          { newRecord with
              driftStatus := DriftStatusActive,
              firstDetected := existing.firstDetected }
      else
        { newRecord with driftStatus := DriftStatusNone }

/-- The in-memory half of database.go `SaveDriftRecord` (lines 252-309):
timestamps, the desired-state hash, and the save layer's own state
transition driven by its re-read of the existing record (`existingRecord`;
under the single-writer discipline it is the same document the controller
read). -/
def saveDriftRecordTransform (existingRecord : Option DriftRecord)
    (record : DriftRecord) (now : Nat) : DriftRecord :=
  let record := if record.createdAt = 0 then { record with createdAt := now } else record
  let record := { record with lastUpdated := now }
  let record :=
    match record.desiredState with
    | Option.some _ => { record with lastKnownGoodHash := generateHash record.desiredState }
    | Option.none => record
  match existingRecord with
  | Option.some existing =>
      if existing.driftStatus = DriftStatusActive ∧ ¬record.driftDetected then
        { record with
            driftStatus := DriftStatusResolved,
            resolvedAt := some now,
            resolutionMessage := "Drift resolved. Configuration now matches Git." }
      else if record.driftDetected then
        if existing.driftStatus ≠ DriftStatusActive then
          { record with driftStatus := DriftStatusActive, firstDetected := some now }
        else
          { record with
              driftStatus := DriftStatusActive,
              firstDetected := existing.firstDetected }
      else
        { record with driftStatus := DriftStatusNone }
  | Option.none =>
      if record.driftDetected then
        { record with driftStatus := DriftStatusActive, firstDetected := some now }
      else
        { record with driftStatus := DriftStatusNone }

/-- The MongoDB upsert of `SaveDriftRecord` (lines 311-345) applied to the
stored document: the `$set` block always overwrites the listed fields;
`first_detected`, `resolved_at` and `resolution_message` are added to
`$set` only when non-nil / non-empty, so the stored values survive
otherwise; `_id` and `created_at` are `$setOnInsert`. -/
def applyUpsert (existingDoc : Option DriftRecord) (record : DriftRecord) : DriftRecord :=
  match existingDoc with
  | Option.none => record
  | Option.some old =>
      { old with
          kind := record.kind,
          namespaceF := record.namespaceF,
          name := record.name,
          driftDetected := record.driftDetected,
          driftStatus := record.driftStatus,
          driftDetails := record.driftDetails,
          desiredState := record.desiredState,
          liveState := record.liveState,
          lastKnownGoodHash := record.lastKnownGoodHash,
          lastUpdated := record.lastUpdated,
          firstDetected := (match record.firstDetected with
            | Option.some t => Option.some t
            | Option.none => old.firstDetected),
          resolvedAt := (match record.resolvedAt with
            | Option.some t => Option.some t
            | Option.none => old.resolvedAt),
          resolutionMessage := (if record.resolutionMessage ≠ "" then record.resolutionMessage
            else old.resolutionMessage) }

/-- The fresh record built by `analyzeSingleResource` (controller.go lines
215-227) from the diff outcome, before any state transition runs. -/
def buildNewRecord (id : Nat) (resourceID kind namespaceF name : String)
    (detected : Bool) (changes : List DriftChange)
    (desired : Option (List (String × Value))) (live : List (String × Value))
    (now : Nat) : DriftRecord :=
  { id := id, resourceID := resourceID, kind := kind, namespaceF := namespaceF, name := name,
    driftDetected := detected, driftStatus := "", driftDetails := changes,
    desiredState := desired, liveState := live, lastKnownGoodHash := "",
    firstDetected := Option.none, resolvedAt := Option.none, resolutionMessage := "",
    lastUpdated := now, createdAt := now }

/-- One full persisted evaluation of a resource: build the fresh record,
run the controller's state transition against the stored prior document,
run the save layer's transition, and apply the Mongo upsert.  Returns the
document stored for the `resource_id` afterwards. -/
def evalResource (stored : Option DriftRecord) (id : Nat)
    (resourceID kind namespaceF name : String)
    (detected : Bool) (changes : List DriftChange)
    (desired : Option (List (String × Value))) (live : List (String × Value))
    (now : Nat) : DriftRecord :=
  let newRecord := buildNewRecord id resourceID kind namespaceF name detected changes desired live now
  let rec1 := handleDriftStateTransition stored newRecord now
  let rec2 := saveDriftRecordTransform stored rec1 now
  applyUpsert stored rec2

/-- Status of the prior record as seen through the stored document. -/
def storedIsActive : Option DriftRecord → Bool
  | Option.some r => r.driftStatus = DriftStatusActive
  | Option.none => false

def storedFirstDetected : Option DriftRecord → Option Nat
  | Option.some r => r.firstDetected
  | Option.none => Option.none

def storedResolvedAt : Option DriftRecord → Option Nat
  | Option.some r => r.resolvedAt
  | Option.none => Option.none

/-- Outcome of `Database.GetDriftRecord` as observed by the controller:
either a decoded record, or a non-nil error carrying its message (a
missing document also surfaces this way, as `mongo.ErrNoDocuments`). -/
inductive GetRecordResult where
  | found : DriftRecord → GetRecordResult
  | failed : String → GetRecordResult

/-- The prior-record handling of `analyzeSingleResource` (controller.go
lines 207-237): an error whose message lacks "not found" is logged at
error level, but the `if` guards only the log call — there is no `return`,
so the flow continues to `SaveDriftRecord` in every case, with a failed
read leaving `existingRecord` nil.  `loggedReadError` records whether the
error log fired; `upsert` is the record handed to `SaveDriftRecord`
(`some` means the upsert is attempted). -/
structure AnalyzeOutcome where
  loggedReadError : Bool
  upsert : Option DriftRecord

def analyzeResourceUpsert (getResult : GetRecordResult) (newRecord : DriftRecord)
    (now : Nat) : AnalyzeOutcome :=
  let existingRecord : Option DriftRecord :=
    match getResult with
    | .found r => Option.some r
    | .failed _ => Option.none
  let logged : Bool :=
    match getResult with
    | .found _ => false
    | .failed msg => !strContains msg "not found"
  { loggedReadError := logged,
    upsert := Option.some (handleDriftStateTransition existingRecord newRecord now) }

/-- A stored record with an active drift episode (first detected at 10),
used by the literal multi-pass scenarios below. -/
def samplePriorActive : DriftRecord :=
  { id := 1, resourceID := "Deployment:ns:app", kind := "Deployment", namespaceF := "ns",
    name := "app", driftDetected := true, driftStatus := DriftStatusActive,
    driftDetails := [], desiredState := Option.none, liveState := [],
    lastKnownGoodHash := "", firstDetected := some 10, resolvedAt := Option.none,
    resolutionMessage := "", lastUpdated := 10, createdAt := 5 }

/-- A stored record in the `resolved` state (resolved at 20, episode had
begun at 10). -/
def samplePriorResolved : DriftRecord :=
  { id := 1, resourceID := "Deployment:ns:app", kind := "Deployment", namespaceF := "ns",
    name := "app", driftDetected := false, driftStatus := DriftStatusResolved,
    driftDetails := [], desiredState := Option.none, liveState := [],
    lastKnownGoodHash := "", firstDetected := some 10, resolvedAt := some 20,
    resolutionMessage := "Drift resolved. Configuration now matches Git.",
    lastUpdated := 20, createdAt := 5 }

/-- Walking a desired mapping ignores entries prepended to the live side
whose key the desired mapping does not contain: the loop of
`compareMapFields` only ever looks live keys up through the desired
key set. -/
theorem compareMapFields_cons_left (path k : String) (v : Value)
    (livekvs : List (String × Value)) :
    ∀ dkvs : List (String × Value), lookupStr k dkvs = Option.none →
      compareMapFields path ((k, v) :: livekvs) dkvs = compareMapFields path livekvs dkvs := by
  intro dkvs
  induction dkvs with
  | nil => intro h; simp [compareMapFields]
  | cons p rest ih =>
      intro h
      obtain ⟨key, dv⟩ := p
      simp only [lookupStr] at h
      split at h
      · exact absurd h (by simp)
      · rename_i hkey
        have hne : k ≠ key := fun he => hkey he.symm
        simp only [compareMapFields]
        rw [show lookupStr key ((k, v) :: livekvs) = lookupStr key livekvs from by
              simp [lookupStr, hne]]
        rw [ih h]

/-- C1 (counterexample): with live `spec.replicas=3` and desired
`spec.replicas=2`, the single emitted change carries `from = 2` (the
desired value) and `to = 3` (the live value) — not `from = 3, to = 2` as
the claim states.  `deepCompare`'s scalar case passes `desired` as the
`from` argument of `createDriftChange` and `live` as `to`. -/
theorem detectDrift_change_orientation_counterexample :
    ((detectDrift "Deployment:ns:app" [("spec", .vMap [("replicas", .vInt 3)])]
        [("spec", .vMap [("replicas", .vInt 2)])] 0).changes.map
      (fun c => (c.field, toInt c.fromVal, toInt c.toVal, c.type, c.severity))) =
      [("spec.replicas", some 2, some 3, "Scaling", "high")] ∧
    (("spec.replicas", some (2 : Int), some (3 : Int), "Scaling", "high") ≠
      ("spec.replicas", some (3 : Int), some (2 : Int), "Scaling", "high")) := by
  constructor
  · simp [detectDrift, deepCompare, compareMapFields, compareSlices, extraElements,
      lookupStr, typeTag, beqV]
    decide
  · decide

/-- C1 (amended): for every scalar difference the diff engine emits, the
change's `from` field equals the value declared in the desired (Git) state
at that path and its `to` field equals the value seen live; in particular,
with live `spec.replicas=3` and desired `spec.replicas=2`, the single
emitted change has `from=2` and `to=3` (type `Scaling`, severity `high`,
the 50% delta).  Stated on `deepCompare`'s scalar branch: equally-typed
unequal non-mapping non-sequence values emit exactly one change with
`fromVal` the desired value and `toVal` the live value. -/
theorem deepCompare_scalar_from_desired_to_live (path : String) (live desired : Value)
    (htag : typeTag live = typeTag desired) (hscalar : typeTag live ≤ 3)
    (hne : beqV live desired = false) :
    deepCompare path live desired =
      [createDriftChange path desired live (classifyChange path desired live)
        (assessSeverity path desired live)] := by
  cases live <;> cases desired <;> simp_all [deepCompare, typeTag]

/-- Witness for C1 at the claim's concrete input: the scalar pair of the
`spec.replicas` scenario. -/
theorem deepCompare_scalar_from_desired_to_live_witness :
    typeTag (Value.vInt 3) = typeTag (Value.vInt 2) ∧
    typeTag (Value.vInt 3) ≤ 3 ∧
    beqV (Value.vInt 3) (Value.vInt 2) = false ∧
    deepCompare "spec.replicas" (.vInt 3) (.vInt 2) =
      [createDriftChange "spec.replicas" (.vInt 2) (.vInt 3)
        (classifyChange "spec.replicas" (.vInt 2) (.vInt 3))
        (assessSeverity "spec.replicas" (.vInt 2) (.vInt 3))] :=
  ⟨rfl, by decide, by simp [beqV],
   deepCompare_scalar_from_desired_to_live "spec.replicas" (.vInt 3) (.vInt 2) rfl (by decide)
     (by simp [beqV])⟩

/-- C2 (counterexample): a prior record with `drift_status = resolved`
evaluated with `detected = false` is stored with `drift_status = none`,
not `resolved` as the claim states. -/
theorem resolved_then_clean_stays_resolved_counterexample :
    (evalResource (some samplePriorResolved) 2 "Deployment:ns:app" "Deployment" "ns" "app"
        false [] Option.none [] 30).driftStatus = "none" ∧
    ("none" : String) ≠ "resolved" := by
  constructor
  · decide
  · decide

/-- C2 (amended): if the prior record's `drift_status` is `resolved` and
the new diff outcome has `detected = false`, the record stored by the
upsert has `drift_status = none` (both the controller's and the save
layer's transition fall through to their final else branch), and neither
`first_detected` nor `resolved_at` is mutated by that evaluation: the
fresh record leaves both nil, so the conditional `$set` keeps the stored
values. -/
theorem resolved_then_clean_evaluation_goes_none (e : DriftRecord) (id : Nat)
    (rid kind ns name : String) (changes : List DriftChange)
    (desired : Option (List (String × Value))) (live : List (String × Value)) (now : Nat)
    (h : e.driftStatus = DriftStatusResolved) :
    (evalResource (some e) id rid kind ns name false changes desired live now).driftStatus =
        DriftStatusNone ∧
    (evalResource (some e) id rid kind ns name false changes desired live now).firstDetected =
        e.firstDetected ∧
    (evalResource (some e) id rid kind ns name false changes desired live now).resolvedAt =
        e.resolvedAt := by
  cases desired <;>
    simp [evalResource, buildNewRecord, handleDriftStateTransition,
      saveDriftRecordTransform, applyUpsert, h, DriftStatusResolved, DriftStatusActive,
      DriftStatusNone]

/-- Witness for C2 at the concrete resolved prior record. -/
theorem resolved_then_clean_evaluation_goes_none_witness :
    samplePriorResolved.driftStatus = DriftStatusResolved ∧
    (evalResource (some samplePriorResolved) 2 "Deployment:ns:app" "Deployment" "ns" "app"
        false [] Option.none [] 30).driftStatus = DriftStatusNone ∧
    (evalResource (some samplePriorResolved) 2 "Deployment:ns:app" "Deployment" "ns" "app"
        false [] Option.none [] 30).firstDetected = samplePriorResolved.firstDetected ∧
    (evalResource (some samplePriorResolved) 2 "Deployment:ns:app" "Deployment" "ns" "app"
        false [] Option.none [] 30).resolvedAt = samplePriorResolved.resolvedAt :=
  ⟨rfl,
   (resolved_then_clean_evaluation_goes_none samplePriorResolved 2 "Deployment:ns:app"
      "Deployment" "ns" "app" [] Option.none [] 30 rfl).1,
   (resolved_then_clean_evaluation_goes_none samplePriorResolved 2 "Deployment:ns:app"
      "Deployment" "ns" "app" [] Option.none [] 30 rfl).2.1,
   (resolved_then_clean_evaluation_goes_none samplePriorResolved 2 "Deployment:ns:app"
      "Deployment" "ns" "app" [] Option.none [] 30 rfl).2.2⟩

/-- C3: `resolved_at` of the stored record is assigned the evaluation time
exactly when the prior status is `active` and the new outcome has
`detected = false`; every other evaluation preserves the stored value
(the fresh record's nil `resolved_at` is left out of the `$set`).  The
literal scenario: after resolution at 20, a new drift detection at 30
stores an `active` record that still carries `resolved_at = 20`. -/
theorem resolvedAt_set_only_on_resolution_and_never_cleared :
    (∀ (stored : Option DriftRecord) (id : Nat) (rid kind ns name : String) (detected : Bool)
        (changes : List DriftChange) (desired : Option (List (String × Value)))
        (live : List (String × Value)) (now : Nat),
      (evalResource stored id rid kind ns name detected changes desired live now).resolvedAt =
        if storedIsActive stored && !detected then some now else storedResolvedAt stored) ∧
    ((evalResource (some samplePriorActive) 2 "Deployment:ns:app" "Deployment" "ns" "app"
        false [] Option.none [] 20).driftStatus = DriftStatusResolved ∧
     (evalResource (some samplePriorActive) 2 "Deployment:ns:app" "Deployment" "ns" "app"
        false [] Option.none [] 20).resolvedAt = some 20 ∧
     (evalResource
        (some (evalResource (some samplePriorActive) 2 "Deployment:ns:app" "Deployment" "ns"
          "app" false [] Option.none [] 20))
        3 "Deployment:ns:app" "Deployment" "ns" "app" true [] Option.none [] 30).driftStatus =
        DriftStatusActive ∧
     (evalResource
        (some (evalResource (some samplePriorActive) 2 "Deployment:ns:app" "Deployment" "ns"
          "app" false [] Option.none [] 20))
        3 "Deployment:ns:app" "Deployment" "ns" "app" true [] Option.none [] 30).resolvedAt =
        some 20) := by
  constructor
  · intro stored id rid kind ns name detected changes desired live now
    cases stored with
    | none =>
        cases detected <;> cases desired <;>
          simp [evalResource, buildNewRecord, handleDriftStateTransition,
            saveDriftRecordTransform, applyUpsert, storedIsActive, storedResolvedAt]
    | some e =>
        by_cases hact : e.driftStatus = DriftStatusActive <;> cases detected <;> cases desired <;>
          cases hra : e.resolvedAt <;>
          simp [evalResource, buildNewRecord, handleDriftStateTransition,
            saveDriftRecordTransform, applyUpsert, storedIsActive, storedResolvedAt, hact, hra]
  · refine ⟨by decide, by decide, by decide, by decide⟩

/-- C4 (code evaluated at the failing input): the two association-list
orders of one and the same desired map — Go's `range` may enumerate a map
in either order on different runs — produce change lists in different
orders for the same live state, so the engine's output order is not a
function of its inputs. -/
theorem detector_output_depends_on_map_iteration_order :
    ([("a", Value.vInt 2), ("b", Value.vInt 2)] : List (String × Value)).Perm
        [("b", Value.vInt 2), ("a", Value.vInt 2)] ∧
    (deepCompare "" (.vMap [("a", .vInt 1), ("b", .vInt 1)])
        (.vMap [("a", .vInt 2), ("b", .vInt 2)])).map (fun c => c.field) = ["a", "b"] ∧
    (deepCompare "" (.vMap [("a", .vInt 1), ("b", .vInt 1)])
        (.vMap [("b", .vInt 2), ("a", .vInt 2)])).map (fun c => c.field) = ["b", "a"] ∧
    (["a", "b"] : List String) ≠ ["b", "a"] := by
  refine ⟨List.Perm.swap _ _ _, ?_, ?_, by decide⟩ <;>
    simp [deepCompare, compareMapFields, compareSlices, extraElements, lookupStr, typeTag,
      beqV, createDriftChange]

/-- C5 (counterexample): a prior-record read failing with an error whose
message does not contain "not found" does not make the reconciler skip the
resource: the upsert is still handed a record (built as if there were no
prior record), while the error is logged. -/
theorem read_error_skip_counterexample :
    strContains "connection refused" "not found" = false ∧
    (analyzeResourceUpsert (.failed "connection refused")
        (buildNewRecord 7 "Deployment:ns:app" "Deployment" "ns" "app" true [] Option.none [] 30)
        30).loggedReadError = true ∧
    (analyzeResourceUpsert (.failed "connection refused")
        (buildNewRecord 7 "Deployment:ns:app" "Deployment" "ns" "app" true [] Option.none [] 30)
        30).upsert.isSome = true := by
  refine ⟨by decide, by decide, by decide⟩

/-- C5 (amended): every failed read of the prior record — whatever the
error message — is treated as "no prior record" and the resource is still
processed: the `if` around the error only guards the log statement (it
fires exactly when the message lacks "not found"), and the upsert proceeds
with a nil existing record. -/
theorem read_error_processed_as_no_prior (msg : String) (newRecord : DriftRecord) (now : Nat) :
    analyzeResourceUpsert (.failed msg) newRecord now =
      { loggedReadError := !strContains msg "not found",
        upsert := Option.some (handleDriftStateTransition Option.none newRecord now) } := rfl

/-- C6: `first_detected` of the stored record is assigned the evaluation
time exactly when `detected = true` and the prior status is not `active`
(no prior record, `none`, or `resolved`); every other evaluation —
consecutive `active` passes and the closing `active → resolved`
transition included — carries the stored value through unchanged.  The
literal scenario: detection at 10, continued drift at 20, resolution at
30, all storing `first_detected = 10`. -/
theorem firstDetected_set_once_per_episode :
    (∀ (stored : Option DriftRecord) (id : Nat) (rid kind ns name : String) (detected : Bool)
        (changes : List DriftChange) (desired : Option (List (String × Value)))
        (live : List (String × Value)) (now : Nat),
      (evalResource stored id rid kind ns name detected changes desired live now).firstDetected =
        if detected && !storedIsActive stored then some now else storedFirstDetected stored) ∧
    ((evalResource Option.none 1 "Deployment:ns:app" "Deployment" "ns" "app"
        true [] Option.none [] 10).firstDetected = some 10 ∧
     (evalResource
        (some (evalResource Option.none 1 "Deployment:ns:app" "Deployment" "ns" "app"
          true [] Option.none [] 10))
        2 "Deployment:ns:app" "Deployment" "ns" "app" true [] Option.none [] 20).firstDetected =
        some 10 ∧
     (evalResource
        (some (evalResource
          (some (evalResource Option.none 1 "Deployment:ns:app" "Deployment" "ns" "app"
            true [] Option.none [] 10))
          2 "Deployment:ns:app" "Deployment" "ns" "app" true [] Option.none [] 20))
        3 "Deployment:ns:app" "Deployment" "ns" "app" false [] Option.none [] 30).firstDetected =
        some 10 ∧
     (evalResource
        (some (evalResource
          (some (evalResource Option.none 1 "Deployment:ns:app" "Deployment" "ns" "app"
            true [] Option.none [] 10))
          2 "Deployment:ns:app" "Deployment" "ns" "app" true [] Option.none [] 20))
        3 "Deployment:ns:app" "Deployment" "ns" "app" false [] Option.none [] 30).driftStatus =
        DriftStatusResolved) := by
  constructor
  · intro stored id rid kind ns name detected changes desired live now
    cases stored with
    | none =>
        cases detected <;> cases desired <;>
          simp [evalResource, buildNewRecord, handleDriftStateTransition,
            saveDriftRecordTransform, applyUpsert, storedIsActive, storedFirstDetected]
    | some e =>
        by_cases hact : e.driftStatus = DriftStatusActive <;> cases detected <;> cases desired <;>
          cases hfd : e.firstDetected <;>
          simp [evalResource, buildNewRecord, handleDriftStateTransition,
            saveDriftRecordTransform, applyUpsert, storedIsActive, storedFirstDetected, hact, hfd]
  · refine ⟨by decide, by decide, by decide, by decide⟩

/-- C7: a scalar change at a path whose lowercased form contains
`replicas` and none of `image`, `secret`, `resources.limits`, with both
values coercible to integers and a positive baseline `from`, is `high`
exactly when `100 * |to − from| ≥ 50 * from` (the integer magnitude of
`|to − from| / from` reaching 50%), and `medium` otherwise. -/
theorem replicas_severity_fifty_percent_threshold (path : String) (v1 v2 : Value) (f t : Int)
    (hrep : strContains (goToLower path) "replicas" = true)
    (himg : strContains (goToLower path) "image" = false)
    (hsec : strContains (goToLower path) "secret" = false)
    (hlim : strContains (goToLower path) "resources.limits" = false)
    (hf : toInt v1 = some f) (ht : toInt v2 = some t) (hpos : 0 < f) :
    assessSeverity path v1 v2 = if 100 * |t - f| ≥ 50 * f then "high" else "medium" := by
  have habs : |f - t| = |t - f| := abs_sub_comm f t
  simp only [assessSeverity, isSignificantReplicaChange, hf, ht, himg, hsec, hlim, hrep,
    if_false, if_true, Bool.false_eq_true, Bool.true_and]
  have h0 : ¬(f = 0) := by omega
  have hneg : ¬(f < 0) := by omega
  simp only [h0, hneg, if_false, habs]
  by_cases hcond : 100 * |t - f| ≥ 50 * f
  · simp [hcond]
  · simp [hcond]

/-- Witness for C7 at the claim's four concrete replica changes:
2→3 is `high` (50%), 4→5 `medium` (25%), 10→6 `medium` (40%),
10→5 `high` (50%). -/
theorem replicas_severity_fifty_percent_threshold_witness :
    assessSeverity "spec.replicas" (.vInt 2) (.vInt 3) = "high" ∧
    assessSeverity "spec.replicas" (.vInt 4) (.vInt 5) = "medium" ∧
    assessSeverity "spec.replicas" (.vInt 10) (.vInt 6) = "medium" ∧
    assessSeverity "spec.replicas" (.vInt 10) (.vInt 5) = "high" :=
  ⟨(replicas_severity_fifty_percent_threshold "spec.replicas" (.vInt 2) (.vInt 3) 2 3
      (by decide) (by decide) (by decide) (by decide) rfl rfl (by decide)).trans (by decide),
   (replicas_severity_fifty_percent_threshold "spec.replicas" (.vInt 4) (.vInt 5) 4 5
      (by decide) (by decide) (by decide) (by decide) rfl rfl (by decide)).trans (by decide),
   (replicas_severity_fifty_percent_threshold "spec.replicas" (.vInt 10) (.vInt 6) 10 6
      (by decide) (by decide) (by decide) (by decide) rfl rfl (by decide)).trans (by decide),
   (replicas_severity_fifty_percent_threshold "spec.replicas" (.vInt 10) (.vInt 5) 10 5
      (by decide) (by decide) (by decide) (by decide) rfl rfl (by decide)).trans (by decide)⟩

/-- C8: the `last_known_good_hash` stored on upsert is a deterministic
function of `desired_state` alone — two desired-state maps with the same
key-value trees (equal canonical forms, i.e. equal up to map entry order
at every level) hash to identical strings, because `json.Marshal`
serialises mappings in sorted key order — it is prefixed with the hash
name `sha256:`, and the stored field is exactly `generateHash` of the
evaluated desired state, whatever the prior record and diff outcome. -/
theorem lastKnownGoodHash_canonical_function_of_desired :
    (∀ d1 d2 : List (String × Value), canonV (.vMap d1) = canonV (.vMap d2) →
      generateHash (some d1) = generateHash (some d2)) ∧
    (∀ d : List (String × Value), ∃ rest, generateHash (some d) = "sha256:" ++ rest) ∧
    (∀ (stored : Option DriftRecord) (id : Nat) (rid kind ns name : String) (detected : Bool)
        (changes : List DriftChange) (m : List (String × Value))
        (live : List (String × Value)) (now : Nat),
      (evalResource stored id rid kind ns name detected changes (some m) live now).lastKnownGoodHash =
        generateHash (some m)) := by
  refine ⟨?_, ?_, ?_⟩
  · intro d1 d2 h
    simp only [generateHash, jsonMarshal]
    rw [h]
  · intro d
    exact ⟨bytesToHex (sha256Bytes (strBytes (jsonMarshal d))), rfl⟩
  · intro stored id rid kind ns name detected changes m live now
    cases stored with
    | none =>
        cases detected <;>
          simp [evalResource, buildNewRecord, handleDriftStateTransition,
            saveDriftRecordTransform, applyUpsert]
    | some e =>
        by_cases hact : e.driftStatus = DriftStatusActive <;> cases detected <;>
          simp [evalResource, buildNewRecord, handleDriftStateTransition,
            saveDriftRecordTransform, applyUpsert, hact]

/-- Witness for C8: two desired states equal up to map entry order at both
nesting levels; their canonical forms coincide and the theorem yields
identical hash strings. -/
theorem lastKnownGoodHash_canonical_function_of_desired_witness :
    canonV (.vMap [("b", .vInt 1), ("a", .vMap [("y", .vStr "s"), ("x", .vBool true)])]) =
      canonV (.vMap [("a", .vMap [("x", .vBool true), ("y", .vStr "s")]), ("b", .vInt 1)]) ∧
    generateHash (some [("b", .vInt 1), ("a", .vMap [("y", .vStr "s"), ("x", .vBool true)])]) =
      generateHash (some [("a", .vMap [("x", .vBool true), ("y", .vStr "s")]), ("b", .vInt 1)]) :=
  ⟨by simp [canonV, canonM, sortByKey, insertEntry, keyLe],
   lastKnownGoodHash_canonical_function_of_desired.1
     [("b", .vInt 1), ("a", .vMap [("y", .vStr "s"), ("x", .vBool true)])]
     [("a", .vMap [("x", .vBool true), ("y", .vStr "s")]), ("b", .vInt 1)]
     (by simp [canonV, canonM, sortByKey, insertEntry, keyLe])⟩

/-- C9: the mapping walk iterates only the keys of the desired mapping, so
a key present in live but absent in desired never produces a change
(prepending such an entry to the live mapping leaves the diff untouched);
diffing any live mapping against an empty desired mapping emits no changes,
and `DetectDrift` reports `detected = false` with an empty change list. -/
theorem live_only_keys_not_reported :
    (∀ (path k : String) (v : Value) (livekvs dkvs : List (String × Value)),
      lookupStr k dkvs = Option.none →
        deepCompare path (.vMap ((k, v) :: livekvs)) (.vMap dkvs) =
          deepCompare path (.vMap livekvs) (.vMap dkvs)) ∧
    (∀ (path : String) (livekvs : List (String × Value)),
      deepCompare path (.vMap livekvs) (.vMap []) = []) ∧
    (∀ (rid : String) (livekvs : List (String × Value)) (now : Nat),
      (detectDrift rid livekvs [] now).detected = false ∧
      (detectDrift rid livekvs [] now).changes = []) := by
  refine ⟨?_, ?_, ?_⟩
  · intro path k v livekvs dkvs h
    simp [deepCompare, typeTag]
    rw [compareMapFields_cons_left path k v livekvs dkvs h]
  · intro path livekvs
    simp [deepCompare, compareMapFields, typeTag]
  · intro rid livekvs now
    constructor <;> simp [detectDrift, deepCompare, compareMapFields, typeTag]

/-- Witness for C9: a live mapping carrying a `status` key that the
desired manifest does not declare diffs identically to the live mapping
without it. -/
theorem live_only_keys_not_reported_witness :
    lookupStr "status" [("spec", Value.vInt 5)] = Option.none ∧
    deepCompare "" (.vMap [("status", .vStr "Running"), ("spec", .vInt 5)])
        (.vMap [("spec", .vInt 5)]) =
      deepCompare "" (.vMap [("spec", .vInt 5)]) (.vMap [("spec", .vInt 5)]) :=
  ⟨by simp [lookupStr],
   live_only_keys_not_reported.1 "" "status" (.vStr "Running") [("spec", .vInt 5)]
     [("spec", .vInt 5)] (by simp [lookupStr])⟩

/-- C10: a replicas-path scalar change whose baseline (`from`) value
coerces to integer 0 and whose other value coerces to a non-zero integer
is assessed `high` and no error is raised: the Go percentage computation
`float64(diff) / float64(0) * 100` is IEEE division yielding `+Inf`
(embedded as the `fromInt = 0` branch of `isSignificantReplicaChange`),
and `+Inf >= 50` holds. -/
theorem replicas_zero_baseline_severity_high (path : String) (v1 v2 : Value) (n : Int)
    (hrep : strContains (goToLower path) "replicas" = true)
    (himg : strContains (goToLower path) "image" = false)
    (hsec : strContains (goToLower path) "secret" = false)
    (hlim : strContains (goToLower path) "resources.limits" = false)
    (hf : toInt v1 = some 0) (ht : toInt v2 = some n) (hn : n ≠ 0) :
    assessSeverity path v1 v2 = "high" := by
  simp [assessSeverity, isSignificantReplicaChange, hf, ht, himg, hsec, hlim, hrep, hn]

/-- Witness for C10: live replicas scaled from a zero baseline. -/
theorem replicas_zero_baseline_severity_high_witness :
    assessSeverity "spec.replicas" (.vInt 0) (.vInt 3) = "high" :=
  replicas_zero_baseline_severity_high "spec.replicas" (.vInt 0) (.vInt 3) 3
    (by decide) (by decide) (by decide) (by decide) rfl rfl (by decide)
